import Mathlib

/-!
Shallow embedding of the credential-and-token subsystem of the
sunrisers_property_listing_assistant repository:
src/backend/app/auth.py, src/backend/app/api/auth.py and the
authorization branches of src/backend/app/api/properties.py.

Times are naturals (seconds since the epoch); the wall clock read by
datetime.now(timezone.utc) is passed as an explicit argument.  Stateful
endpoints are embedded by explicit state passing: an endpoint that
mutates the current user record returns the resulting record.
-/

namespace Sunrisers

/-- models.UserRole: admin, agent, client. -/
inductive UserRole where
  | admin
  | agent
  | client
deriving DecidableEq, Repr

/-- Model of password digest strings as handled by passlib
CryptContext(schemes=["bcrypt"]).  A digest produced by the hasher is a
salted bcrypt hash; bcrypt is idealized as collision-free, so a
well-formed digest is modelled as its salt together with the hashed
plaintext.  Any other string is a digest passlib cannot identify. -/
inductive Digest where
  | bcrypt (salt : Nat) (password : String)
  | malformed (raw : String)
deriving DecidableEq, Repr

/-- models.User: the columns of the users table that the auth subsystem
reads or writes. -/
structure User where
  id : Nat
  username : String
  email : String
  hashed_password : Digest
  role : UserRole
  is_active : Bool
  is_verified : Bool
  last_login : Option Nat
deriving DecidableEq, Repr

/-- An outcome surfaced to the HTTP caller: either a fastapi
HTTPException (status code and detail) raised by the handler, or an
exception the handler does not catch (a passlib UnknownHashError, a
subclass of ValueError) escaping as an unhandled server error. -/
inductive ApiError where
  | http (statusCode : Nat) (detail : String)
  | raisedValueError (msg : String)
deriving DecidableEq, Repr

/-- Model of passlib CryptContext.hash: a fresh salt is drawn per call
and embedded in the digest, so the digest is always well-formed. -/
def pwd_context_hash (password : String) (salt : Nat) : Digest :=
  Digest.bcrypt salt password

/-- Model of passlib CryptContext.verify: returns a boolean for a digest
it can identify and raises UnknownHashError (a ValueError) for a digest
it cannot, per the documented passlib contract. -/
def pwd_context_verify (plain : String) (digest : Digest) : Except ApiError Bool :=
  match digest with
  | Digest.bcrypt _ stored => Except.ok (stored == plain)
  | Digest.malformed _ => Except.error (ApiError.raisedValueError "hash could not be identified")

/-- auth.py SECRET_KEY. -/
def SECRET_KEY : String := "your-secret-key-here-change-in-production"

/-- auth.py ACCESS_TOKEN_EXPIRE_MINUTES. -/
def ACCESS_TOKEN_EXPIRE_MINUTES : Nat := 30

/-- auth.py verify_password: delegates to pwd_context.verify with no
try/except, so an UnknownHashError propagates. -/
def verify_password (plain_password : String) (hashed_password : Digest) : Except ApiError Bool :=
  pwd_context_verify plain_password hashed_password

/-- auth.py get_password_hash: delegates to pwd_context.hash. -/
def get_password_hash (password : String) (salt : Nat) : Digest :=
  pwd_context_hash password salt

/-- The query db.query(User).filter((User.username == s) | (User.email == s)).first()
over a database modelled as the list of user rows. -/
def findUserByUsernameOrEmail (db : List User) (identifier : String) : Option User :=
  db.find? (fun u => u.username == identifier || u.email == identifier)

/-- The query db.query(User).filter(User.email == s).first(). -/
def findUserByEmail (db : List User) (email : String) : Option User :=
  db.find? (fun u => u.email == email)

/-- auth.py authenticate_user: looks the user up by username or email;
returns False (here: none) when no user is found or the password fails
verification, and the user on success.  An exception raised by
verify_password propagates. -/
def authenticate_user (db : List User) (username password : String) :
    Except ApiError (Option User) :=
  match findUserByUsernameOrEmail db username with
  | none => Except.ok none
  | some user =>
    match verify_password password user.hashed_password with
    | Except.error e => Except.error e
    | Except.ok false => Except.ok none
    | Except.ok true => Except.ok (some user)

/-- The JWT claim set this application uses: an optional subject and an
optional absolute expiry timestamp. -/
structure Claims where
  sub : Option String
  exp : Option Nat
deriving DecidableEq, Repr

/-- Model of an HMAC signature: idealized as the exact data the verifier
recomputes, namely the signing secret and the signed payload, so that a
signature matches exactly when it was produced with the same secret over
the same payload. -/
structure Sig where
  secret : String
  payload : Claims
deriving DecidableEq, Repr

/-- Model of a compact JWT string: either a structurally valid token
(payload segment plus signature segment) or a string that does not parse
as a JWT at all. -/
inductive Token where
  | signed (claims : Claims) (sig : Sig)
  | malformed (raw : String)
deriving DecidableEq, Repr

/-- The failure modes of python-jose jwt.decode; all three exception
classes are subclasses of JWTError. -/
inductive JWTError where
  | badSignature
  | malformedToken
  | expiredSignature
deriving DecidableEq, Repr

/-- Model of jose jwt.encode: serialize the claims and sign them with
the secret. -/
def jwt_encode (claims : Claims) (secret : String) : Token :=
  Token.signed claims (Sig.mk secret claims)

/-- Model of jose jwt.decode at clock reading now: reject a string that
does not parse, then check the signature, then check the exp claim
(expired exactly when exp < now, leeway 0); return the claims on
success. -/
def jwt_decode (token : Token) (secret : String) (now : Nat) : Except JWTError Claims :=
  match token with
  | Token.malformed _ => Except.error JWTError.malformedToken
  | Token.signed claims sig =>
    if sig = Sig.mk secret claims then
      match claims.exp with
      | some e => if e < now then Except.error JWTError.expiredSignature else Except.ok claims
      | none => Except.ok claims
    else Except.error JWTError.badSignature

/-- auth.py create_access_token: copy the data and set exp.  The source
branches on the Python truthiness of expires_delta, so both a missing
delta and an explicit zero delta (timedelta(0) is falsy) take the
hard-coded 15-minute branch; a nonzero delta gives expiry now + delta.
The claims are then encoded with the server secret. -/
def create_access_token (data : Claims) (expires_delta : Option Nat) (now : Nat) : Token :=
  let expire : Nat :=
    match expires_delta with
    | some delta => if delta = 0 then now + 15 * 60 else now + delta
    | none => now + 15 * 60
  jwt_encode { data with exp := some expire } SECRET_KEY

/-- The exp claim carried by a token, when the token is structurally
valid. -/
def tokenExpiry : Token → Option Nat
  | Token.signed claims _ => claims.exp
  | Token.malformed _ => none

/-- auth.py credentials_exception: the single generic rejection raised
by get_current_user. -/
def credentials_exception : ApiError :=
  ApiError.http 401 "Could not validate credentials"

/-- auth.py get_current_user: decode the token (any JWTError is caught
and replaced by credentials_exception), require a sub claim, reload the
user by username or email; on success set last_login to now, commit, and
return the user. -/
def get_current_user (token : Token) (db : List User) (now : Nat) :
    Except ApiError User :=
  match jwt_decode token SECRET_KEY now with
  | Except.error _ => Except.error credentials_exception
  | Except.ok payload =>
    match payload.sub with
    | none => Except.error credentials_exception
    | some username =>
      match findUserByUsernameOrEmail db username with
      | none => Except.error credentials_exception
      | some user => Except.ok { user with last_login := some now }

/-- auth.py get_current_active_user: rejects a resolved user whose
is_active flag is false. -/
def get_current_active_user (token : Token) (db : List User) (now : Nat) :
    Except ApiError User :=
  match get_current_user token db now with
  | Except.error e => Except.error e
  | Except.ok current_user =>
    if current_user.is_active then Except.ok current_user
    else Except.error (ApiError.http 400 "Inactive user")

/-- The response body of api/auth.py forgot_password, split into the
message returned to the caller and the debug line printed to the server
log (the print is not part of the HTTP response). -/
structure ForgotPasswordOutcome where
  message : String
  serverLog : Option String
deriving DecidableEq, Repr

/-- The acknowledgment string both branches of forgot_password return. -/
def forgotPasswordMessage : String :=
  "If this email is registered, you will receive a password reset link."

/-- api/auth.py forgot_password: look the user up by email; return the
generic acknowledgment whether or not a user was found, printing a debug
line to the server log in the found branch. -/
def forgot_password (db : List User) (email : String) : ForgotPasswordOutcome :=
  match findUserByEmail db email with
  | none => ForgotPasswordOutcome.mk forgotPasswordMessage none
  | some user =>
    ForgotPasswordOutcome.mk forgotPasswordMessage
      (some ("[DEBUG] Password reset requested for user: " ++ user.username
        ++ " (" ++ user.email ++ ")"))

/-- api/auth.py change_password, given the already-resolved current
user: verify the current password against the stored hash (an exception
from verify_password propagates); on mismatch raise 400 before any
mutation; on match replace the stored hash with a fresh hash of the new
password and commit.  The second component is the user row after the
call. -/
def change_password (current_password new_password : String) (current_user : User)
    (salt : Nat) : Except ApiError String × User :=
  match verify_password current_password current_user.hashed_password with
  | Except.error e => (Except.error e, current_user)
  | Except.ok false =>
    (Except.error (ApiError.http 400 "Incorrect current password"), current_user)
  | Except.ok true =>
    let updated : User := { current_user with hashed_password := get_password_hash new_password salt }
    (Except.ok "Password updated successfully", updated)

/-- The change-password route: resolve the bearer token through
get_current_user, then run change_password on the resolved user.  The
second component is the resulting user row when resolution succeeded. -/
def change_password_route (token : Token) (db : List User) (now : Nat)
    (current_password new_password : String) (salt : Nat) :
    Except ApiError String × Option User :=
  match get_current_user token db now with
  | Except.error e => (Except.error e, none)
  | Except.ok current_user =>
    let r := change_password current_password new_password current_user salt
    (r.1, some r.2)

/-- api/auth.py refresh_access_token: resolve the bearer token through
get_current_user, then issue a fresh token for the resolved username
with an explicit ttl of ACCESS_TOKEN_EXPIRE_MINUTES. -/
def refresh_access_token (token : Token) (db : List User) (now : Nat) :
    Except ApiError (Token × String) :=
  match get_current_user token db now with
  | Except.error e => Except.error e
  | Except.ok current_user =>
    Except.ok
      (create_access_token (Claims.mk (some current_user.username) none)
        (some (ACCESS_TOKEN_EXPIRE_MINUTES * 60)) now, "bearer")

/-- The columns of models.Property the authorization branches read;
agent_id is nullable. -/
structure Property where
  id : Nat
  owner_id : Nat
  agent_id : Option Nat
deriving DecidableEq, Repr

/-- The authorization branch of api/properties.py update_property:
raises 403 when the caller is neither the owner, nor the assigned agent,
nor an admin. -/
def update_property_check (property : Property) (current_user : User) :
    Except ApiError Unit :=
  if property.owner_id ≠ current_user.id ∧ property.agent_id ≠ some current_user.id
      ∧ current_user.role ≠ UserRole.admin then
    Except.error (ApiError.http 403 "Not authorized")
  else Except.ok ()

/-- The authorization branch of api/properties.py delete_property:
raises 403 when the caller is neither the owner nor an admin. -/
def delete_property_check (property : Property) (current_user : User) :
    Except ApiError Unit :=
  if property.owner_id ≠ current_user.id ∧ current_user.role ≠ UserRole.admin then
    Except.error (ApiError.http 403 "Not authorized")
  else Except.ok ()

/-- Modelled from the spec: the guard requireOwnerOrRole(ownerIds,
allowedRoles) succeeds exactly when the identity id is in ownerIds or
the identity role is in allowedRoles; the source expresses it only as
the inline conditional branches of update_property and
delete_property. -/
def requireOwnerOrRole (ownerIds : List Nat) (allowedRoles : List UserRole)
    (identity : User) : Bool :=
  decide (identity.id ∈ ownerIds) || decide (identity.role ∈ allowedRoles)

/-! Concrete fixtures used by witnesses and counterexamples. -/

/-- A stored digest for the plaintext "correct-pw". -/
def aliceHash : Digest := pwd_context_hash "correct-pw" 42

/-- An active demo user. -/
def alice : User :=
  User.mk 1 "alice" "alice@example.com" aliceHash UserRole.client true true none

/-- A user database holding only alice. -/
def demoDb : List User := [alice]

/-- A disabled demo user. -/
def inactiveBob : User :=
  User.mk 2 "bob" "bob@example.com" (pwd_context_hash "bob-pw" 7) UserRole.client
    false false none

/-- A user database holding only the disabled user. -/
def inactiveDb : List User := [inactiveBob]

/-- The claims of a demo token for alice expiring at time 600. -/
def demoClaims : Claims := Claims.mk (some "alice") (some 600)

/-- A well-signed demo token for alice expiring at time 600. -/
def demoToken : Token := jwt_encode demoClaims SECRET_KEY

/-- The demo token with its signature segment tampered: the signature no
longer matches a signing of the payload with the server secret. -/
def tamperedToken : Token :=
  Token.signed demoClaims (Sig.mk "your-secret-key-here-change-in-productioX" demoClaims)

/-- The claims of a demo token for the disabled user, expiring at 600. -/
def bobClaims : Claims := Claims.mk (some "bob") (some 600)

/-- A well-signed demo token for the disabled user. -/
def bobToken : Token := jwt_encode bobClaims SECRET_KEY

/-- A client-role user with id 7. -/
def user7client : User :=
  User.mk 7 "u7" "u7@example.com" (pwd_context_hash "p7" 1) UserRole.client true false none

/-- A client-role user with id 8. -/
def user8client : User :=
  User.mk 8 "u8" "u8@example.com" (pwd_context_hash "p8" 2) UserRole.client true false none

/-- An admin-role user with id 8. -/
def user8admin : User :=
  User.mk 8 "u8a" "u8a@example.com" (pwd_context_hash "p8a" 3) UserRole.admin true false none

deriving instance DecidableEq for Except

/-! Theorems. -/

/-- C1: authenticate_user returns the same rejection outcome (the Python
False, here none) when the identifier matches no user as when it matches
a user whose stored hash rejects the password; the two failure paths
yield the identical result. -/
theorem authenticate_user_failure_indistinguishable
    (db : List User) (ident1 pw1 ident2 pw2 : String) (u : User)
    (h1 : findUserByUsernameOrEmail db ident1 = none)
    (h2 : findUserByUsernameOrEmail db ident2 = some u)
    (h3 : verify_password pw2 u.hashed_password = Except.ok false) :
    authenticate_user db ident1 pw1 = Except.ok none ∧
    authenticate_user db ident2 pw2 = Except.ok none ∧
    authenticate_user db ident1 pw1 = authenticate_user db ident2 pw2 := by
  simp [authenticate_user, h1, h2, h3]

/-- C1 witness: unknown identifier and wrong password against a concrete
database give the identical outcome. -/
theorem authenticate_user_failure_indistinguishable_witness :
    authenticate_user demoDb "mallory" "x" = Except.ok none ∧
    authenticate_user demoDb "alice" "wrong" = Except.ok none ∧
    authenticate_user demoDb "mallory" "x" = authenticate_user demoDb "alice" "wrong" :=
  authenticate_user_failure_indistinguishable demoDb "mallory" "x" "alice" "wrong" alice
    (by decide) (by decide) (by decide)

/-- C4 counterexample: issuing with no explicit ttl sets the expiry to
issuance time plus 15 minutes, which differs from issuance time plus the
30-minute ACCESS_TOKEN_EXPIRE_MINUTES. -/
theorem create_access_token_default_counterexample :
    tokenExpiry (create_access_token (Claims.mk (some "alice") none) none 0) =
      some (15 * 60) ∧
    tokenExpiry (create_access_token (Claims.mk (some "alice") none) none 0) ≠
      some (ACCESS_TOKEN_EXPIRE_MINUTES * 60) :=
  ⟨rfl, by decide⟩

/-- C4 amended: without an explicit ttl the expiry is issuance time plus
a hard-coded 15 minutes; the 30-minute ACCESS_TOKEN_EXPIRE_MINUTES ttl
is what the login and refresh call sites pass explicitly. -/
theorem create_access_token_default_ttl (data : Claims) (now : Nat) :
    tokenExpiry (create_access_token data none now) = some (now + 15 * 60) ∧
    tokenExpiry (create_access_token data (some (ACCESS_TOKEN_EXPIRE_MINUTES * 60)) now) =
      some (now + ACCESS_TOKEN_EXPIRE_MINUTES * 60) :=
  ⟨rfl, rfl⟩

/-- C5 counterexample: verify_password applied to a malformed digest
propagates the passlib UnknownHashError rather than returning false. -/
theorem verify_password_malformed_counterexample :
    verify_password "pw" (Digest.malformed "notahash") =
      Except.error (ApiError.raisedValueError "hash could not be identified") ∧
    verify_password "pw" (Digest.malformed "notahash") ≠ Except.ok false :=
  ⟨rfl, by decide⟩

/-- C5 amended: for every plaintext and every malformed digest,
verify_password raises (propagates the uncaught passlib error); it never
returns false. -/
theorem verify_password_malformed_raises (plain raw : String) :
    verify_password plain (Digest.malformed raw) =
      Except.error (ApiError.raisedValueError "hash could not be identified") :=
  rfl

/-- C7: forgot_password returns the identical generic acknowledgment
whether the email matches a stored user or matches none; the response
message reveals nothing about the match. -/
theorem forgot_password_uniform_response
    (db : List User) (email1 email2 : String) (u : User)
    (h1 : findUserByEmail db email1 = some u)
    (h2 : findUserByEmail db email2 = none) :
    (forgot_password db email1).message = (forgot_password db email2).message ∧
    (forgot_password db email1).message = forgotPasswordMessage := by
  unfold forgot_password
  rw [h1, h2]
  exact ⟨rfl, rfl⟩

/-- C7 witness: a matching and a non-matching email against a concrete
database produce the same acknowledgment. -/
theorem forgot_password_uniform_response_witness :
    (forgot_password demoDb "alice@example.com").message =
      (forgot_password demoDb "nobody@example.com").message ∧
    (forgot_password demoDb "alice@example.com").message = forgotPasswordMessage :=
  forgot_password_uniform_response demoDb "alice@example.com" "nobody@example.com" alice
    (by decide) (by decide)

/-- C2 counterexample: a tampered-signature token, a malformed token and
an expired token all produce the one generic credentials_exception from
get_current_user, so the three rejections are not distinguishable by the
caller — even though the decode layer below raises distinct errors. -/
theorem token_failure_reasons_not_distinct :
    get_current_user tamperedToken demoDb 100 = Except.error credentials_exception ∧
    get_current_user (Token.malformed "junk") demoDb 100 = Except.error credentials_exception ∧
    get_current_user demoToken demoDb 700 = Except.error credentials_exception ∧
    get_current_user demoToken demoDb 100 = Except.ok { alice with last_login := some 100 } ∧
    jwt_decode tamperedToken SECRET_KEY 100 = Except.error JWTError.badSignature ∧
    jwt_decode (Token.malformed "junk") SECRET_KEY 100 = Except.error JWTError.malformedToken ∧
    jwt_decode demoToken SECRET_KEY 700 = Except.error JWTError.expiredSignature :=
  ⟨rfl, rfl, rfl, rfl, rfl, rfl, rfl⟩

/-- C2 amended: every failed token verification, whatever the
decode-level reason (bad signature, malformed structure, or expiry), is
surfaced by get_current_user as the same single generic
credentials_exception; the caller cannot distinguish the modes. -/
theorem token_failure_collapses_to_generic
    (token : Token) (db : List User) (now : Nat) (e : JWTError)
    (h : jwt_decode token SECRET_KEY now = Except.error e) :
    get_current_user token db now = Except.error credentials_exception := by
  simp [get_current_user, h]

/-- C2 amended witness: a concrete malformed token. -/
theorem token_failure_collapses_to_generic_witness :
    get_current_user (Token.malformed "zz") demoDb 5 = Except.error credentials_exception :=
  token_failure_collapses_to_generic (Token.malformed "zz") demoDb 5
    JWTError.malformedToken rfl

/-- C3 counterexample: at ttl = 0 the falsy-delta branch of the source
(timedelta(0) is falsy) issues a token that expires 15 minutes after
issuance, so at time 1 — strictly after now + ttl = 0 — resolution
succeeds instead of being rejected as expired. -/
theorem issue_then_resolve_zero_ttl_counterexample :
    get_current_user (create_access_token (Claims.mk (some "alice") none) (some 0) 0)
        demoDb 1 = Except.ok { alice with last_login := some 1 } ∧
    tokenExpiry (create_access_token (Claims.mk (some "alice") none) (some 0) 0) =
      some (15 * 60) :=
  ⟨rfl, rfl⟩

/-- C3 amended: for a subject naming an existing user and a nonzero ttl,
a token issued at time now resolves successfully at any time strictly
before now + ttl, returning the user stored for that subject; at any
time after now + ttl the decode layer rejects it as expired and
resolution fails.  At ttl = 0 the issuance instead takes the falsy-delta
branch and the token expires 15 minutes after issuance. -/
theorem issue_then_resolve_expiry
    (data : Claims) (sub : String) (db : List User) (u : User) (now ttl t : Nat)
    (httl : 0 < ttl)
    (hsub : data.sub = some sub)
    (hfind : findUserByUsernameOrEmail db sub = some u) :
    (t < now + ttl →
      get_current_user (create_access_token data (some ttl) now) db t =
        Except.ok { u with last_login := some t }) ∧
    (now + ttl < t →
      jwt_decode (create_access_token data (some ttl) now) SECRET_KEY t =
        Except.error JWTError.expiredSignature ∧
      get_current_user (create_access_token data (some ttl) now) db t =
        Except.error credentials_exception) := by
  have hne : ttl ≠ 0 := Nat.pos_iff_ne_zero.mp httl
  constructor
  · intro ht
    simp [get_current_user, jwt_decode, create_access_token, jwt_encode, hsub, hfind,
      hne, Nat.lt_asymm ht]
  · intro ht
    simp [get_current_user, jwt_decode, create_access_token, jwt_encode, hne, ht]

/-- C3 witness: a token for alice issued at time 0 with ttl 600 resolves
at time 10 and is rejected at time 700. -/
theorem issue_then_resolve_expiry_witness :
    get_current_user (create_access_token (Claims.mk (some "alice") none) (some 600) 0)
        demoDb 10 = Except.ok { alice with last_login := some 10 } ∧
    get_current_user (create_access_token (Claims.mk (some "alice") none) (some 600) 0)
        demoDb 700 = Except.error credentials_exception :=
  ⟨(issue_then_resolve_expiry (Claims.mk (some "alice") none) "alice" demoDb alice 0 600 10
      (by decide) rfl (by decide)).1 (by decide),
   ((issue_then_resolve_expiry (Claims.mk (some "alice") none) "alice" demoDb alice 0 600 700
      (by decide) rfl (by decide)).2 (by decide)).2⟩

/-- C6: change_password with a current password that fails verification
fails with the 400 rejection and leaves the user row, hence the stored
hash, unchanged; with a current password that verifies, it replaces the
stored hash by a fresh hash of the new password. -/
theorem change_password_verify_and_replace
    (current_user : User) (current_password new_password : String) (salt : Nat) :
    (verify_password current_password current_user.hashed_password = Except.ok false →
      (change_password current_password new_password current_user salt).1 =
        Except.error (ApiError.http 400 "Incorrect current password") ∧
      (change_password current_password new_password current_user salt).2 = current_user) ∧
    (verify_password current_password current_user.hashed_password = Except.ok true →
      (change_password current_password new_password current_user salt).1 =
        Except.ok "Password updated successfully" ∧
      (change_password current_password new_password current_user salt).2 =
        { current_user with hashed_password := get_password_hash new_password salt }) := by
  constructor <;> intro h <;> simp [change_password, h]

/-- C6 witness: wrong current password leaves alice unchanged; the
correct one replaces her stored hash with a hash of the new password. -/
theorem change_password_verify_and_replace_witness :
    (change_password "wrong" "fresh" alice 5).1 =
      Except.error (ApiError.http 400 "Incorrect current password") ∧
    (change_password "wrong" "fresh" alice 5).2 = alice ∧
    (change_password "correct-pw" "fresh" alice 5).2 =
      { alice with hashed_password := get_password_hash "fresh" 5 } :=
  ⟨((change_password_verify_and_replace alice "wrong" "fresh" 5).1 (by decide)).1,
   ((change_password_verify_and_replace alice "wrong" "fresh" 5).1 (by decide)).2,
   ((change_password_verify_and_replace alice "correct-pw" "fresh" 5).2 (by decide)).2⟩

/-- C8: the owner-or-role guard succeeds exactly when the identity id is
in the owner-id set or its role is in the allowed-role set and otherwise
fails the 403 rejection; the inline update and delete authorization
branches are exactly instances of it (owner plus assigned agent, and
owner alone, each with allowed role admin); it allows id 7 against owner
set [7] for every role and denies id 8 unless the role is admin. -/
theorem owner_or_role_guard_correct :
    (∀ (ownerIds : List Nat) (allowedRoles : List UserRole) (identity : User),
      requireOwnerOrRole ownerIds allowedRoles identity = true ↔
        identity.id ∈ ownerIds ∨ identity.role ∈ allowedRoles) ∧
    (∀ (property : Property) (current_user : User),
      update_property_check property current_user =
        (if requireOwnerOrRole (property.owner_id :: property.agent_id.toList)
            [UserRole.admin] current_user then Except.ok ()
         else Except.error (ApiError.http 403 "Not authorized"))) ∧
    (∀ (property : Property) (current_user : User),
      delete_property_check property current_user =
        (if requireOwnerOrRole [property.owner_id] [UserRole.admin] current_user
         then Except.ok ()
         else Except.error (ApiError.http 403 "Not authorized"))) ∧
    (∀ identity : User, identity.id = 7 →
      requireOwnerOrRole [7] [UserRole.admin] identity = true) ∧
    (∀ identity : User, identity.id = 8 →
      (requireOwnerOrRole [7] [UserRole.admin] identity = true ↔
        identity.role = UserRole.admin)) := by
  refine ⟨?_, ?_, ?_, ?_, ?_⟩
  · intro ownerIds allowedRoles identity
    simp [requireOwnerOrRole]
  · intro property current_user
    by_cases h1 : property.owner_id = current_user.id
    · simp [update_property_check, requireOwnerOrRole, h1]
    · by_cases h3 : current_user.role = UserRole.admin
      · simp [update_property_check, requireOwnerOrRole, h1, h3]
      · cases hag : property.agent_id with
        | none =>
          simp [update_property_check, requireOwnerOrRole, h1, h3, hag, Ne.symm h1]
        | some aid =>
          by_cases h2 : aid = current_user.id
          · simp [update_property_check, requireOwnerOrRole, h1, h2, h3, hag]
          · simp [update_property_check, requireOwnerOrRole, h1, h2, h3, hag,
              Ne.symm h1, Ne.symm h2]
  · intro property current_user
    by_cases h1 : property.owner_id = current_user.id
    · simp [delete_property_check, requireOwnerOrRole, h1]
    · by_cases h3 : current_user.role = UserRole.admin
      · simp [delete_property_check, requireOwnerOrRole, h1, h3]
      · simp [delete_property_check, requireOwnerOrRole, h1, h3, Ne.symm h1]
  · intro identity h
    simp [requireOwnerOrRole, h]
  · intro identity h
    simp [requireOwnerOrRole, h]

/-- C8 witness: id 7 with client role is allowed against owner set [7];
id 8 with client role is denied; id 8 with admin role is allowed. -/
theorem owner_or_role_guard_correct_witness :
    requireOwnerOrRole [7] [UserRole.admin] user7client = true ∧
    ¬ requireOwnerOrRole [7] [UserRole.admin] user8client = true ∧
    requireOwnerOrRole [7] [UserRole.admin] user8admin = true :=
  ⟨owner_or_role_guard_correct.2.2.2.1 user7client rfl,
   fun h =>
     absurd ((owner_or_role_guard_correct.2.2.2.2 user8client rfl).mp h) (by decide),
   (owner_or_role_guard_correct.2.2.2.2 user8admin rfl).mpr rfl⟩

/-- C9: on a successful resolve the returned user row is the stored row
with last_login set to the resolution time and every other field — id,
username, email, password hash, role, active flag, verified flag —
unchanged. -/
theorem resolve_updates_only_last_login
    (token : Token) (db : List User) (now : Nat) (payload : Claims)
    (username : String) (u : User)
    (hdec : jwt_decode token SECRET_KEY now = Except.ok payload)
    (hsub : payload.sub = some username)
    (hfind : findUserByUsernameOrEmail db username = some u) :
    get_current_user token db now = Except.ok { u with last_login := some now } ∧
    ({ u with last_login := some now } : User).last_login = some now ∧
    ({ u with last_login := some now } : User).id = u.id ∧
    ({ u with last_login := some now } : User).username = u.username ∧
    ({ u with last_login := some now } : User).email = u.email ∧
    ({ u with last_login := some now } : User).hashed_password = u.hashed_password ∧
    ({ u with last_login := some now } : User).role = u.role ∧
    ({ u with last_login := some now } : User).is_active = u.is_active ∧
    ({ u with last_login := some now } : User).is_verified = u.is_verified := by
  refine ⟨?_, rfl, rfl, rfl, rfl, rfl, rfl, rfl, rfl⟩
  simp [get_current_user, hdec, hsub, hfind]

/-- C9 witness: resolving the demo token at time 100 returns alice with
only last_login changed. -/
theorem resolve_updates_only_last_login_witness :
    get_current_user demoToken demoDb 100 =
      Except.ok { alice with last_login := some 100 } ∧
    ({ alice with last_login := some 100 } : User).hashed_password =
      alice.hashed_password :=
  ⟨(resolve_updates_only_last_login demoToken demoDb 100 demoClaims "alice" alice
      rfl rfl (by decide)).1,
   (resolve_updates_only_last_login demoToken demoDb 100 demoClaims "alice" alice
      rfl rfl (by decide)).2.2.2.2.2.1⟩

/-- C10: resolution performs no active-flag check: a valid unexpired
token for a disabled user still resolves to that user; token refresh
succeeds for it, and the change-password route behaves exactly as
change_password on the resolved user; only the separate
get_current_active_user guard rejects the disabled account. -/
theorem inactive_user_still_resolves
    (token : Token) (db : List User) (now : Nat) (payload : Claims)
    (sub : String) (u : User)
    (hdec : jwt_decode token SECRET_KEY now = Except.ok payload)
    (hsub : payload.sub = some sub)
    (hfind : findUserByUsernameOrEmail db sub = some u)
    (hinactive : u.is_active = false) :
    get_current_user token db now = Except.ok { u with last_login := some now } ∧
    refresh_access_token token db now =
      Except.ok (create_access_token (Claims.mk (some u.username) none)
        (some (ACCESS_TOKEN_EXPIRE_MINUTES * 60)) now, "bearer") ∧
    (∀ current_password new_password salt,
      (change_password_route token db now current_password new_password salt).1 =
        (change_password current_password new_password
          { u with last_login := some now } salt).1) ∧
    get_current_active_user token db now =
      Except.error (ApiError.http 400 "Inactive user") := by
  have hres : get_current_user token db now = Except.ok { u with last_login := some now } := by
    simp [get_current_user, hdec, hsub, hfind]
  refine ⟨hres, ?_, ?_, ?_⟩
  · simp [refresh_access_token, hres]
  · intro current_password new_password salt
    simp [change_password_route, hres]
  · simp [get_current_active_user, hres, hinactive]

/-- C10 witness: a valid token for the disabled user bob resolves at
time 100, while the active-user guard rejects him. -/
theorem inactive_user_still_resolves_witness :
    get_current_user bobToken inactiveDb 100 =
      Except.ok { inactiveBob with last_login := some 100 } ∧
    get_current_active_user bobToken inactiveDb 100 =
      Except.error (ApiError.http 400 "Inactive user") :=
  ⟨(inactive_user_still_resolves bobToken inactiveDb 100 bobClaims "bob" inactiveBob
      rfl rfl (by decide) rfl).1,
   (inactive_user_still_resolves bobToken inactiveDb 100 bobClaims "bob" inactiveBob
      rfl rfl (by decide) rfl).2.2.2⟩

end Sunrisers
